import Mathlib

/-!
Shallow embedding of the speed-blockchain node (Rust) for specification
checking.  Every definition below is translated from the repository source;
the file and function of origin are named in each doc comment.

Modelling conventions:
* Machine integers are Nat with explicit reduction modulo 2^w at the points
  where the Rust code can wrap.  alloy/ruint U256 arithmetic follows the
  standard Rust convention (wrap in release builds), so the plain + and *
  of the source are modelled as u256add / u256mul below, and checked_add /
  checked_sub as Option-valued operations.
* Byte strings (alloy B256, address byte slices, hash preimages) are
  List Nat values; fixed-width big-endian / little-endian encodings are
  beBytes / leBytes.
* The cryptographic primitives come from external crates (alloy keccak256,
  rand_chacha ChaCha20Rng, secp256k1 recovery), not from this repository;
  they are passed as explicit function parameters (keccak, chacha, recover,
  sign), exactly where the source calls into those crates.  Concrete
  instantiations are provided for evaluation.
* Rust HashMap values are association lists; the list order models the
  iteration order of the map (which Rust leaves unspecified).
* A panic (unwrap of None, division by zero, the unreachable arm) is a
  distinguished outcome, never silently dropped.
-/

/-- Byte strings: each entry is one byte (values are taken modulo 256 by the
encoders below). -/
abbrev Bytes := List Nat

/-- The U256 modulus. -/
def U256MOD : Nat := 2 ^ 256

/-- Wrapping U256 addition (Rust release-mode + on alloy U256). -/
def u256add (a b : Nat) : Nat := (a + b) % U256MOD

/-- Wrapping U256 multiplication (Rust release-mode * on alloy U256). -/
def u256mul (a b : Nat) : Nat := (a * b) % U256MOD

/-- U256::checked_add. -/
def u256checkedAdd (a b : Nat) : Option Nat :=
  if a + b < U256MOD then some (a + b) else none

/-- U256::checked_sub. -/
def u256checkedSub (a b : Nat) : Option Nat :=
  if b ≤ a then some (a - b) else none

/-- Fixed-width big-endian byte encoding (to_be_bytes on uN / U256 /
Address byte slices). -/
def beBytes : Nat → Nat → Bytes
  | 0, _ => []
  | w + 1, n => beBytes w (n / 256) ++ [n % 256]

/-- Fixed-width little-endian byte encoding (to_le_bytes). -/
def leBytes : Nat → Nat → Bytes
  | 0, _ => []
  | w + 1, n => n % 256 :: leBytes w (n / 256)

/-- B256::ZERO. -/
def zeros32 : Bytes := List.replicate 32 0

/-- Account (src/src/account/account.rs): balance, nonce, address. -/
structure Account where
  balance : Nat
  nonce : Nat
  address : Nat
deriving DecidableEq

/-- Account::new: zero balance and nonce (src/src/account/account.rs). -/
def Account.newAccount (address : Nat) : Account :=
  { balance := 0, nonce := 0, address := address }

/-- State (src/src/state/state.rs): address → Account map plus the cached
state root.  apply_transaction takes a StateManager whose definition is not
under src/; modelled from the spec: the spec (§3 State) specifies exactly
the map-plus-cached-root interface that src/src/state/state.rs implements,
so State stands in for it. -/
structure State where
  accounts : List (Nat × Account)
  state_root : Bytes
deriving DecidableEq

/-- State::get_account: clone the stored account or a fresh zero account
(src/src/state/state.rs lines 22-27). -/
def get_account (st : State) (address : Nat) : Account :=
  match st.accounts.find? (fun p => p.1 == address) with
  | some p => p.2
  | none => Account.newAccount address

/-- State::get_balance (src/src/state/state.rs). -/
def get_balance (st : State) (address : Nat) : Nat :=
  (get_account st address).balance

/-- State::get_nonce (src/src/state/state.rs). -/
def get_nonce (st : State) (address : Nat) : Nat :=
  (get_account st address).nonce

/-- Insertion step of an insertion sort with a boolean order. -/
def insertSorted (leB : α → α → Bool) (x : α) : List α → List α
  | [] => [x]
  | y :: ys => if leB x y then x :: y :: ys else y :: insertSorted leB x ys

/-- Insertion sort with a boolean order; models the ascending sorts of the
source (addresses.sort(), sort_by_key). -/
def sortBy (leB : α → α → Bool) : List α → List α
  | [] => []
  | x :: xs => insertSorted leB x (sortBy leB xs)

/-- The concatenated account records hashed by State::calculate_state_root:
for each account in ascending address order, address(20) followed by
balance(32 BE) and nonce(8 BE) (src/src/state/state.rs lines 40-59). -/
def stateRootData (accounts : List (Nat × Account)) : Bytes :=
  (sortBy (fun p q => p.1 ≤ q.1) accounts).foldl
    (fun d p => d ++ beBytes 20 p.1 ++ beBytes 32 p.2.balance ++ beBytes 8 p.2.nonce) []

/-- State::calculate_state_root (src/src/state/state.rs lines 40-59): the
all-zero root on empty data, keccak256 of the sorted account records
otherwise. -/
def calculate_state_root (keccak : Bytes → Bytes) (accounts : List (Nat × Account)) : Bytes :=
  let data := stateRootData accounts
  if data = [] then zeros32 else keccak data

/-- HashMap::insert modelled on an association list: replace the entry with
the same key in place, otherwise append. -/
def assocInsert (m : List (Nat × Account)) (k : Nat) (v : Account) : List (Nat × Account) :=
  if m.any (fun p => p.1 == k) then m.map (fun p => if p.1 == k then (k, v) else p)
  else m ++ [(k, v)]

/-- State::set_account (src/src/state/state.rs lines 30-38): remove the
account when balance and nonce are both zero, insert otherwise, then
recompute the cached state root. -/
def set_account (keccak : Bytes → Bytes) (st : State) (address : Nat) (account : Account) : State :=
  let accounts :=
    if account.balance = 0 ∧ account.nonce = 0 then
      st.accounts.filter (fun p => p.1 ≠ address)
    else assocInsert st.accounts address account
  { accounts := accounts, state_root := calculate_state_root keccak accounts }

/-- Transaction (src/src/core/transaction.rs).  The Rust field from is the
Lean field fromAddr (from is reserved in Lean); signature is an opaque
value handed to the external recovery primitive; hash is the attached
32-byte transaction hash. -/
structure Transaction where
  fromAddr : Nat
  toAddr : Nat
  amount : Nat
  timestamp : Nat
  nonce : Nat
  gas_limit : Nat
  gas_price : Nat
  signature : Nat
  hash : Bytes
deriving DecidableEq

/-- Transaction::calculate_hash (src/src/core/transaction.rs lines 88-101):
keccak256 over from(20), to(20), amount(32 BE), gas_limit(32 BE),
gas_price(32 BE), timestamp(8 BE), nonce(8 BE); the signature is excluded. -/
def calculate_hash (keccak : Bytes → Bytes) (tx : Transaction) : Bytes :=
  keccak (beBytes 20 tx.fromAddr ++ beBytes 20 tx.toAddr ++ beBytes 32 tx.amount
    ++ beBytes 32 tx.gas_limit ++ beBytes 32 tx.gas_price
    ++ beBytes 8 tx.timestamp ++ beBytes 8 tx.nonce)

/-- Transaction::max_transaction_cost (src/src/core/transaction.rs lines
104-107): amount + gas_limit * gas_price in wrapping U256 arithmetic. -/
def max_transaction_cost (tx : Transaction) : Nat :=
  u256add tx.amount (u256mul tx.gas_limit tx.gas_price)

/-- Transaction::is_signature_valid (src/src/core/transaction.rs lines
64-85): the recomputed hash must equal the attached hash and the recovered
signer must equal the from address.  The secp256k1 recovery is the external
recover parameter; the source unwraps the recovery result, so recovery is
modelled as total. -/
def is_signature_valid (recover : Bytes → Nat → Nat) (keccak : Bytes → Bytes)
    (tx : Transaction) : Bool :=
  let calculated := calculate_hash keccak tx
  decide (calculated = tx.hash) && decide (recover calculated tx.signature = tx.fromAddr)

/-- GasConfig (src/src/gas/gas_config.rs). -/
structure GasConfig where
  intrinsic_gas : Nat
  gas_per_byte : Nat
  min_gas_price : Nat
  block_gas_limit : Nat
deriving DecidableEq

/-- GasConfig::default (src/src/gas/gas_config.rs lines 11-20). -/
def gasConfigDefault : GasConfig :=
  { intrinsic_gas := 21000, gas_per_byte := 4,
    min_gas_price := 1000000000, block_gas_limit := 1000000 }

/-- GasCalculator::calculate_instrinsic_gas (src/src/gas/gas_calculator.rs
lines 9-15): intrinsic_gas + gas_per_byte * 40. -/
def calculate_instrinsic_gas (config : GasConfig) : Nat :=
  u256add config.intrinsic_gas (u256mul config.gas_per_byte 40)

/-- GasCalculator::validate_gas_price (src/src/gas/gas_calculator.rs). -/
def validate_gas_price (gas_price : Nat) (config : GasConfig) : Bool :=
  decide (config.min_gas_price ≤ gas_price)

/-- GasCalculator::validate_gas_limit (src/src/gas/gas_calculator.rs). -/
def validate_gas_limit (gas_limit : Nat) (config : GasConfig) : Bool :=
  decide (config.intrinsic_gas ≤ gas_limit) && decide (gas_limit ≤ config.block_gas_limit)

/-- StateTransitionError (src/src/state/error.rs), the typed failures of
apply_transaction. -/
inductive StateTransitionError where
  | gasPriceTooLow
  | invalidGasLimit
  | insufficientGas (provided required : Nat)
  | sameAddress
  | insufficientBalance (has needs : Nat)
  | invalidNonce (expected got : Nat)
  | balanceOverflow
deriving DecidableEq

/-- Outcome of apply_transaction: the Ok value with the mutated state, a
typed error with the state as it stands at the early return, or a panic
(an unwrap of None).  The state is carried in every case because the Rust
function mutates a borrowed state in place. -/
inductive TxOutcome where
  | ok (gas_used : Nat) (st : State)
  | err (e : StateTransitionError) (st : State)
  | panicked (st : State)
deriving DecidableEq

/-- TxOutcome.isPanic. -/
def TxOutcome.isPanic : TxOutcome → Bool
  | .panicked _ => true
  | _ => false

/-- StateTransition::apply_transaction
(src/src/execution/state/state_transition.rs lines 11-109), translated
check-for-check in source order: gas price floor, gas limit window,
intrinsic-gas floor, same-address, balance against max_transaction_cost,
nonce, recipient overflow; then the update step with its two unwraps
(modelled as panicked when the checked operation yields None). -/
def apply_transaction (keccak : Bytes → Bytes) (st : State) (tx : Transaction)
    (config : GasConfig) : TxOutcome :=
  if ¬ validate_gas_price tx.gas_price config then .err .gasPriceTooLow st
  else if ¬ validate_gas_limit tx.gas_limit config then .err .invalidGasLimit st
  else
    let intrinsic_gas := calculate_instrinsic_gas config
    if tx.gas_limit < intrinsic_gas then
      .err (.insufficientGas tx.gas_limit intrinsic_gas) st
    else if tx.fromAddr = tx.toAddr then .err .sameAddress st
    else
      let sender := get_account st tx.fromAddr
      let recipient := get_account st tx.toAddr
      let max_cost := max_transaction_cost tx
      if sender.balance < max_cost then
        .err (.insufficientBalance sender.balance max_cost) st
      else if tx.nonce ≠ sender.nonce then
        .err (.invalidNonce sender.nonce tx.nonce) st
      else if (u256checkedAdd recipient.balance tx.amount).isNone then
        .err .balanceOverflow st
      else
        let gas_used := intrinsic_gas
        let gas_cost := u256mul gas_used tx.gas_price
        let total_cost := u256add tx.amount gas_cost
        match u256checkedSub sender.balance total_cost with
        | none => .panicked st
        | some senderBalance =>
          match u256checkedAdd recipient.balance tx.amount with
          | none => .panicked st
          | some recipientBalance =>
            let sender := { sender with nonce := (sender.nonce + 1) % 2 ^ 64,
                                        balance := senderBalance }
            let recipient := { recipient with balance := recipientBalance }
            let st := set_account keccak st tx.fromAddr sender
            let st := set_account keccak st tx.toAddr recipient
            .ok gas_used st

/-- The only reachable error of Mempool::add_transaction in
src/src/execution/mempool/mempool.rs (the anyhow signature failure). -/
inductive MempoolError where
  | invalidSignature
deriving DecidableEq

/-- Mempool (src/src/execution/mempool/mempool.rs): tx_hash → Transaction
map (association list, list order = HashMap iteration order) with the
max_size capacity field. -/
structure Mempool where
  transactions : List (Bytes × Transaction)
  max_size : Nat
deriving DecidableEq

/-- HashMap::insert for the mempool map: replace the entry with the same
key, otherwise append. -/
def mempoolInsert (m : List (Bytes × Transaction)) (k : Bytes) (v : Transaction) :
    List (Bytes × Transaction) :=
  if m.any (fun p => decide (p.1 = k)) then
    m.map (fun p => if p.1 = k then (k, v) else p)
  else m ++ [(k, v)]

/-- Mempool::validate_transaction (src/src/execution/mempool/mempool.rs
lines 82-101); its result is discarded by add_transaction.  The U256
negativity checks are vacuous; Address::is_empty is always false on a
20-byte address (kept as the literal false). -/
def mempool_validate_transaction (tx : Transaction) : Bool :=
  if tx.fromAddr = tx.toAddr then false else true

/-- Mempool::replace_transaction_by_fee (src/src/execution/mempool/mempool.rs
lines 59-80): find the first stored transaction with the same (from, nonce);
when the incoming gas_price is strictly higher remove the stored one (keyed
by its own hash field); otherwise only log - the function always returns Ok
and never rejects the incoming transaction. -/
def replace_transaction_by_fee (pool : Mempool) (tx : Transaction) : Mempool :=
  match pool.transactions.find?
      (fun p => p.2.fromAddr == tx.fromAddr && p.2.nonce == tx.nonce) with
  | none => pool
  | some p =>
    if p.2.gas_price < tx.gas_price then
      { pool with transactions := pool.transactions.filter (fun q => q.1 ≠ p.2.hash) }
    else pool

/-- Mempool::add_transaction (src/src/execution/mempool/mempool.rs lines
28-56): reject when is_signature_valid fails; the validate_transaction
result is discarded (let _ = ...); replace_transaction_by_fee never errors;
the transaction is then inserted unconditionally - there is no duplicate
or capacity check in this implementation. -/
def add_transaction (recover : Bytes → Nat → Nat) (keccak : Bytes → Bytes)
    (pool : Mempool) (tx : Transaction) : Except MempoolError (Bytes × Mempool) :=
  if ¬ is_signature_valid recover keccak tx then .error .invalidSignature
  else
    let _ := mempool_validate_transaction tx
    let pool := replace_transaction_by_fee pool tx
    let pool := { pool with transactions := mempoolInsert pool.transactions tx.hash tx }
    .ok (tx.hash, pool)

/-- HashMap::insert for the simulation temp maps (Address → Nat). -/
def tempInsert (m : List (Nat × Nat)) (k v : Nat) : List (Nat × Nat) :=
  if m.any (fun p => p.1 == k) then m.map (fun p => if p.1 == k then (k, v) else p)
  else m ++ [(k, v)]

/-- HashMap::get with fallback for the simulation temp maps. -/
def tempGet (m : List (Nat × Nat)) (k : Nat) (fallback : Nat) : Nat :=
  match m.find? (fun p => p.1 == k) with
  | some p => p.2
  | none => fallback

/-- The loop body of ExecutionEngine::simulate_execute_block
(src/src/execution/execution_engine.rs lines 35-75): walk the transactions
in input order keeping per-sender temporary nonces and balances; admit a
transaction when its nonce matches, gas_limit ≥ 21000 and the temporary
balance covers amount + gas_limit * gas_price; update the temps on
admission. -/
def simulate_loop (st : State) (nonces balances : List (Nat × Nat)) :
    List Transaction → List Transaction
  | [] => []
  | tx :: rest =>
    let current_nonce := tempGet nonces tx.fromAddr (get_nonce st tx.fromAddr)
    let current_balance := tempGet balances tx.fromAddr (get_balance st tx.fromAddr)
    let max_cost := u256add tx.amount (u256mul tx.gas_limit tx.gas_price)
    if tx.nonce = current_nonce ∧ 21000 ≤ tx.gas_limit ∧ max_cost ≤ current_balance then
      tx :: simulate_loop st (tempInsert nonces tx.fromAddr ((current_nonce + 1) % 2 ^ 64))
        (tempInsert balances tx.fromAddr (current_balance - max_cost)) rest
    else
      simulate_loop st nonces balances rest

/-- ExecutionEngine::simulate_execute_block
(src/src/execution/execution_engine.rs lines 35-75). -/
def simulate_execute_block (st : State) (transactions : List Transaction) :
    List Transaction :=
  simulate_loop st [] [] transactions

/-- Receipt (src/src/execution/receipt/receipt.rs); the stringified error
message is kept as the typed error. -/
structure Receipt where
  tx_hash : Bytes
  gas_used : Nat
  success : Bool
  error : Option StateTransitionError
deriving DecidableEq

/-- ExecutionResult (src/src/execution/execution_engine.rs lines 12-17). -/
structure ExecutionResult where
  receipts : List Receipt
  total_gas_used : Nat
  state_root : Bytes
deriving DecidableEq

/-- The loop of ExecutionEngine::execute_block_commit
(src/src/execution/execution_engine.rs lines 78-138): apply each
transaction in block order; a success yields a success receipt with the
actual gas, a typed failure yields a failure receipt burning the full
gas_limit; a panic inside apply_transaction propagates (none). -/
def commit_loop (keccak : Bytes → Bytes) (config : GasConfig) (st : State)
    (total_gas : Nat) (receipts : List Receipt) :
    List Transaction → Option (List Receipt × Nat × State)
  | [] => some (receipts, total_gas, st)
  | tx :: rest =>
    match apply_transaction keccak st tx config with
    | .ok gas_used st' =>
      commit_loop keccak config st' (u256add total_gas gas_used)
        (receipts ++ [{ tx_hash := tx.hash, gas_used := gas_used, success := true,
                        error := none }]) rest
    | .err e st' =>
      commit_loop keccak config st' (u256add total_gas tx.gas_limit)
        (receipts ++ [{ tx_hash := tx.hash, gas_used := tx.gas_limit, success := false,
                        error := some e }]) rest
    | .panicked _ => none

/-- ExecutionEngine::execute_block_commit
(src/src/execution/execution_engine.rs lines 78-138). -/
def execute_block_commit (keccak : Bytes → Bytes) (config : GasConfig)
    (st : State) (transactions : List Transaction) :
    Option (ExecutionResult × State) :=
  match commit_loop keccak config st 0 [] transactions with
  | none => none
  | some (receipts, total_gas_used, st') =>
    some ({ receipts := receipts, total_gas_used := total_gas_used,
            state_root := st'.state_root }, st')

/-- Validator (src/src/consensus/validator.rs lines 7-13). -/
structure Validator where
  address : Nat
  staked_amount : Nat
  is_active : Bool
  last_block_proposed : Nat
  slash_count : Nat
deriving DecidableEq

/-- ValidatorSet (src/src/consensus/validator.rs lines 16-20): the
HashMap Address → Validator is an association list whose order models the
iteration order of HashMap::values. -/
structure ValidatorSet where
  validators : List (Nat × Validator)
  total_stake : Nat
  min_stake : Nat
deriving DecidableEq

/-- ValidatorSet::get_active_validators (src/src/consensus/validator.rs
lines 53-58): filter HashMap::values - in iteration order, with no sort -
by is_active and the min_stake floor. -/
def get_active_validators (vs : ValidatorSet) : List Validator :=
  (vs.validators.map (fun p => p.2)).filter
    (fun v => v.is_active && decide (vs.min_stake ≤ v.staked_amount))

/-- ProposerSelection (src/src/consensus/proposer.rs lines 8-11). -/
structure ProposerSelection where
  validator_set : ValidatorSet
  randomness_seed : Bytes
deriving DecidableEq

/-- Failures of selector_proposer: the NoActiveValidators error of the
source, and the panics (u64 remainder by a zero total stake, and the
unreachable end of the walk). -/
inductive SelectError where
  | noActiveValidators
  | panicked
deriving DecidableEq

/-- The accumulation walk of ProposerSelection::selector_proposer
(src/src/consensus/proposer.rs lines 42-52): add each staked_amount to the
u64 cumulative stake and return the first validator with
random_stake < cumulative; the exhausted case is the unreachable arm. -/
def walk_validators (random_stake : Nat) (cumulative : Nat) :
    List Validator → Except SelectError Nat
  | [] => .error .panicked
  | v :: rest =>
    let cumulative := (cumulative + v.staked_amount) % 2 ^ 64
    if random_stake < cumulative then .ok v.address
    else walk_validators random_stake cumulative rest

/-- ProposerSelection::selector_proposer (src/src/consensus/proposer.rs
lines 22-53): filter the active validators (NoActiveValidators when empty),
build the per-slot seed by overwriting the first 8 bytes of randomness_seed
with slot.to_le_bytes(), draw one u64 from the external ChaCha20 primitive
(the chacha parameter), reduce it modulo the u64 total stake (a Rust panic
when the total is zero), and walk the validators. -/
def selector_proposer (chacha : Bytes → Nat) (ps : ProposerSelection) (slot : Nat) :
    Except SelectError Nat :=
  let active := get_active_validators ps.validator_set
  if active = [] then .error .noActiveValidators
  else
    let seed := leBytes 8 slot ++ ps.randomness_seed.drop 8
    let random_bytes := chacha seed % 2 ^ 64
    let total_stake := (active.map (fun v => v.staked_amount)).sum % 2 ^ 64
    if total_stake = 0 then .error .panicked
    else walk_validators (random_bytes % total_stake) 0 active

/-- BlockHeader (src/src/core/blockheader.rs lines 9-25). -/
structure BlockHeader where
  index : Nat
  parent_hash : Bytes
  slot : Nat
  timestamp : Nat
  proposer : Nat
  transactions_root : Bytes
  state_root : Bytes
  validator_signature : Option Bytes
deriving DecidableEq

/-- BlockHeader::hash (src/src/core/blockheader.rs lines 61-76): keccak256
over index(8 BE), parent_hash(32), slot(8 BE), timestamp(8 BE),
proposer(20), transactions_root(32), state_root(32); the signature is
excluded. -/
def BlockHeader.headerHash (keccak : Bytes → Bytes) (h : BlockHeader) : Bytes :=
  keccak (beBytes 8 h.index ++ h.parent_hash ++ beBytes 8 h.slot
    ++ beBytes 8 h.timestamp ++ beBytes 20 h.proposer
    ++ h.transactions_root ++ h.state_root)

/-- Block (src/src/core/block.rs lines 7-10). -/
structure Block where
  header : BlockHeader
  transactions : List Transaction
deriving DecidableEq

/-- ConsensusEngine (src/src/consensus/consensus_engine.rs lines 11-26);
genesis_time is not modelled (the wall clock enters only through the now /
nowSlot parameters of the functions below); the local keypair carries its
address, signing being the external sign parameter. -/
structure ConsensusEngine where
  slot_duration : Nat
  current_slot : Nat
  current_block_number : Nat
  current_block_hash : Bytes
  proposer_selection : ProposerSelection
  local_keypair : Option Nat
deriving DecidableEq

/-- ConsensusEngine::calculate_block_hash
(src/src/consensus/consensus_engine.rs lines 194-204): keccak256 over
index(8 BE), parent_hash(32), timestamp(8 BE), slot(8 BE), proposer(20),
state_root(32), transactions_root(32) - note the field order. -/
def calculate_block_hash (keccak : Bytes → Bytes) (h : BlockHeader) : Bytes :=
  keccak (beBytes 8 h.index ++ h.parent_hash ++ beBytes 8 h.timestamp
    ++ beBytes 8 h.slot ++ beBytes 20 h.proposer
    ++ h.state_root ++ h.transactions_root)

/-- ConsensusEngine::calculate_transactions_root
(src/src/consensus/consensus_engine.rs lines 208-218): the all-zero root
for an empty list, otherwise keccak256 of the concatenated transaction
hashes in the order of the list (no sorting). -/
def calculate_transactions_root (keccak : Bytes → Bytes) (transactions : List Transaction) :
    Bytes :=
  if transactions = [] then zeros32
  else keccak ((transactions.map (fun tx => tx.hash)).flatten)

/-- ConsensusEngine::validate_block (src/src/consensus/consensus_engine.rs
lines 51-99), returning none when proposer selection fails (the anyhow
error path) and some of the boolean verdict otherwise; the checks run in
source order and the first failure returns some false.  The now parameter
is the UNIX-seconds wall clock read by the source. -/
def validate_block (keccak : Bytes → Bytes) (chacha : Bytes → Nat)
    (eng : ConsensusEngine) (now : Nat) (block : Block) : Option Bool :=
  if block.header.index ≠ eng.current_block_number + 1 then some false
  else if block.header.parent_hash ≠ eng.current_block_hash then some false
  else
    match selector_proposer chacha eng.proposer_selection block.header.slot with
    | .error _ => none
    | .ok expected_proposer =>
      if block.header.proposer ≠ expected_proposer then some false
      else if now + 30 < block.header.timestamp then some false
      else if calculate_transactions_root keccak block.transactions
          ≠ block.header.transactions_root then some false
      else if calculate_block_hash keccak block.header
          ≠ block.header.headerHash keccak then some false
      else some true

/-- ConsensusEngine::should_produce_block
(src/src/consensus/consensus_engine.rs lines 101-120): only in a slot
beyond current_slot, and only when the local key exists and is the slot's
selected proposer; none is the propagated selection failure. -/
def should_produce_block (chacha : Bytes → Nat) (eng : ConsensusEngine)
    (nowSlot : Nat) : Option Bool :=
  if nowSlot ≤ eng.current_slot then some false
  else
    match selector_proposer chacha eng.proposer_selection nowSlot with
    | .error _ => none
    | .ok selected =>
      match eng.local_keypair with
      | some address => some (decide (address = selected))
      | none => some false

/-- ConsensusEngine::create_block (src/src/consensus/consensus_engine.rs
lines 123-154): header with index = current_block_number + 1, parent_hash =
current_block_hash, the wall-clock slot and timestamp (nowSlot / nowTs
parameters), the selected proposer, a zero state_root placeholder, the
recomputed transactions root and no signature. -/
def create_block (keccak : Bytes → Bytes) (chacha : Bytes → Nat)
    (eng : ConsensusEngine) (nowSlot nowTs : Nat) (transactions : List Transaction) :
    Option Block :=
  match selector_proposer chacha eng.proposer_selection nowSlot with
  | .error _ => none
  | .ok proposer =>
    some { header := { index := eng.current_block_number + 1,
                       parent_hash := eng.current_block_hash,
                       timestamp := nowTs,
                       slot := nowSlot,
                       proposer := proposer,
                       state_root := zeros32,
                       transactions_root := calculate_transactions_root keccak transactions,
                       validator_signature := none },
           transactions := transactions }

/-- ConsensusEngine::finalize_block (src/src/consensus/consensus_engine.rs
lines 157-177): write the execution state root into the header; when the
local key matches the proposer the signature over the header hash is
computed (the external sign parameter) but bound to the discarded
_signature, so the header keeps the validator_signature it already had. -/
def finalize_block (sign : Nat → Bytes → Bytes) (keccak : Bytes → Bytes)
    (eng : ConsensusEngine) (block : Block) (execution_result : ExecutionResult) :
    Block :=
  let block := { block with header := { block.header with
                   state_root := execution_result.state_root } }
  match eng.local_keypair with
  | some address =>
    if address = block.header.proposer then
      let _ := sign address (block.header.headerHash keccak)
      block
    else block
  | none => block

/-- Blockchain::produce_block (src/src/core/blockchain.rs lines 61-113):
abort unless should_produce_block; abort on an empty mempool snapshot;
compute valid_transactions by simulation and abort when it is empty, but
then pass the unfiltered pending list to create_block; commit, finalize
(storage is external and its result is discarded by the source) and return
the finalized block together with the committed state.  none collapses the
anyhow error paths and a commit panic. -/
def produce_block (keccak : Bytes → Bytes) (chacha : Bytes → Nat)
    (sign : Nat → Bytes → Bytes) (eng : ConsensusEngine) (nowSlot nowTs : Nat)
    (pending : List Transaction) (st : State) (config : GasConfig) :
    Option (Block × State) :=
  match should_produce_block chacha eng nowSlot with
  | some true =>
    if pending = [] then none
    else
      let valid_transactions := simulate_execute_block st pending
      if valid_transactions = [] then none
      else
        match create_block keccak chacha eng nowSlot nowTs pending with
        | none => none
        | some block =>
          match execute_block_commit keccak config st block.transactions with
          | none => none
          | some (execution_result, st') =>
            some (finalize_block sign keccak eng block execution_result, st')
  | _ => none

/-- Lexicographic byte-string order, the order of alloy B256 values (which
compare as big-endian byte arrays); Bool-valued for sorting. -/
def bytesLe : Bytes → Bytes → Bool
  | [], _ => true
  | _ :: _, [] => false
  | a :: as_, b :: bs => if a < b then true else if b < a then false else bytesLe as_ bs

/-- The transactions root stated by the specification (spec §3 Block):
keccak256 of the concatenation of the transaction hashes in ascending hash
order, the all-zero root for the empty sequence.  This definition follows
the spec's words (it matches the unused Block::calculate_transactions_root
of src/src/core/block.rs) and exists to be compared with
calculate_transactions_root, the function the consensus engine actually
uses. -/
def spec_transactions_root_sorted (keccak : Bytes → Bytes)
    (transactions : List Transaction) : Bytes :=
  if transactions = [] then zeros32
  else keccak (((sortBy (fun a b => bytesLe a.hash b.hash) transactions).map
    (fun tx => tx.hash)).flatten)

/-- Concrete stand-in for the external keccak256 primitive in closed
evaluations whose truth does not depend on hash values: a constant
function. -/
def hashConst : Bytes → Bytes := fun _ => List.replicate 32 2

/-- Concrete stand-in for the external keccak256 primitive in closed
evaluations that need the hash to distinguish two concrete distinct
preimages: the identity on byte strings distinguishes every pair that the
real keccak256 is believed to distinguish (no collision is known). -/
def hashId : Bytes → Bytes := fun b => b

/-- Concrete stand-in for the external ChaCha20 draw in closed evaluations:
a constant u64. -/
def chachaConst (n : Nat) : Bytes → Nat := fun _ => n

/-- Concrete stand-in for the external secp256k1 recovery in closed
evaluations: recover a fixed address. -/
def recoverConst (a : Nat) : Bytes → Nat → Nat := fun _ _ => a

/-- Concrete stand-in for the external secp256k1 signing primitive in
closed evaluations: a constant 65-byte signature. -/
def signConst : Nat → Bytes → Bytes := fun _ _ => List.replicate 65 7

/-- Single stake-100 validator at address 7 for the consensus evaluations. -/
def vC1 : Validator :=
  { address := 7, staked_amount := 100, is_active := true,
    last_block_proposed := 0, slash_count := 0 }

/-- Validator set holding only vC1 (min_stake 100). -/
def vsC1 : ValidatorSet :=
  { validators := [(7, vC1)], total_stake := 100, min_stake := 100 }

/-- Proposer selection over vsC1 with the hardcoded [1u8; 32] seed of
Blockchain::new. -/
def psC1 : ProposerSelection :=
  { validator_set := vsC1, randomness_seed := List.replicate 32 1 }

/-- Fresh consensus engine (block number 0, zero tip hash), no local key. -/
def engC1 : ConsensusEngine :=
  { slot_duration := 10, current_slot := 0, current_block_number := 0,
    current_block_hash := zeros32, proposer_selection := psC1, local_keypair := none }

/-- Header of an honestly built empty successor block: correct index,
parent, proposer and transactions root, with slot 7 distinct from
timestamp 5. -/
def hdrC1 : BlockHeader :=
  { index := 1, parent_hash := zeros32, slot := 7, timestamp := 5, proposer := 7,
    transactions_root := zeros32, state_root := zeros32, validator_signature := none }

/-- The empty block under hdrC1. -/
def blkC1 : Block := { header := hdrC1, transactions := [] }

/-- engC1 with the local key of the proposer (address 7). -/
def engC2 : ConsensusEngine := { engC1 with local_keypair := some 7 }

/-- An execution result with a distinctive state root. -/
def resC2 : ExecutionResult :=
  { receipts := [], total_gas_used := 0, state_root := List.replicate 32 9 }

/-- State funding the sender (address 5) of the production scenario. -/
def stC3 : State :=
  { accounts := [(5, { balance := 100 * 10 ^ 18, nonce := 0, address := 5 })],
    state_root := zeros32 }

/-- A transaction that simulate_execute_block admits. -/
def t1C3 : Transaction :=
  { fromAddr := 5, toAddr := 6, amount := 10 ^ 18, timestamp := 0, nonce := 0,
    gas_limit := 21160, gas_price := 10 ^ 9, signature := 0,
    hash := List.replicate 32 3 }

/-- A transaction that simulate_execute_block filters out: its gas_limit 0
is below 21000. -/
def t2C3 : Transaction :=
  { fromAddr := 5, toAddr := 6, amount := 10 ^ 18, timestamp := 0, nonce := 1,
    gas_limit := 0, gas_price := 10 ^ 9, signature := 0,
    hash := List.replicate 32 4 }

/-- A stored mempool transaction: (from 5, nonce 5) at gas price 2e9. -/
def tOldW : Transaction :=
  { fromAddr := 5, toAddr := 6, amount := 0, timestamp := 0, nonce := 5,
    gas_limit := 21000, gas_price := 2 * 10 ^ 9, signature := 0,
    hash := List.replicate 32 1 }

/-- An incoming transaction with the same (from, nonce) as tOldW and the
strictly lower gas price 1e9; its hash is the hashConst value so that
is_signature_valid holds under (recoverConst 5, hashConst). -/
def tNewW : Transaction :=
  { fromAddr := 5, toAddr := 6, amount := 0, timestamp := 0, nonce := 5,
    gas_limit := 21000, gas_price := 10 ^ 9, signature := 0,
    hash := List.replicate 32 2 }

/-- Mempool holding tOldW, capacity 10. -/
def poolW4 : Mempool :=
  { transactions := [(List.replicate 32 1, tOldW)], max_size := 10 }

/-- Mempool holding tOldW, capacity 1: it is full. -/
def poolW9 : Mempool :=
  { transactions := [(List.replicate 32 1, tOldW)], max_size := 1 }

/-- An incoming transaction from a different sender (no replace-by-fee
match), signature-valid under (recoverConst 8, hashConst). -/
def tBW : Transaction :=
  { fromAddr := 8, toAddr := 9, amount := 0, timestamp := 0, nonce := 0,
    gas_limit := 21000, gas_price := 10 ^ 9, signature := 0,
    hash := List.replicate 32 2 }

/-- Alice of scenario S1. -/
def aliceAddr : Nat := 10

/-- Bob of scenario S1. -/
def bobAddr : Nat := 11

/-- Scenario S1 state: Alice with balance 100e18 and nonce 0, Bob absent. -/
def stS1 : State :=
  { accounts := [(10, { balance := 100 * 10 ^ 18, nonce := 0, address := 10 })],
    state_root := zeros32 }

/-- Scenario S1 transaction: Alice→Bob, amount 1e18, gas_limit 21160,
gas_price 1e9, nonce 0. -/
def txS1 : Transaction :=
  { fromAddr := 10, toAddr := 11, amount := 10 ^ 18, timestamp := 77, nonce := 0,
    gas_limit := 21160, gas_price := 10 ^ 9, signature := 0, hash := zeros32 }

/-- A transaction from an unfunded sender: apply_transaction fails with
InsufficientBalance. -/
def txErrW : Transaction :=
  { fromAddr := 1, toAddr := 2, amount := 0, timestamp := 0, nonce := 0,
    gas_limit := 21160, gas_price := 10 ^ 9, signature := 0, hash := zeros32 }

/-- The empty state (no accounts, zero root). -/
def stEmpty : State := { accounts := [], state_root := zeros32 }

/-- Validator with stake 100 at address 1. -/
def vA1 : Validator :=
  { address := 1, staked_amount := 100, is_active := true,
    last_block_proposed := 0, slash_count := 0 }

/-- Validator with stake 300 at address 2. -/
def vA2 : Validator :=
  { address := 2, staked_amount := 300, is_active := true,
    last_block_proposed := 0, slash_count := 0 }

/-- Proposer selection whose map iterates vA1 before vA2. -/
def psOrd1 : ProposerSelection :=
  { validator_set := { validators := [(1, vA1), (2, vA2)], total_stake := 400,
                       min_stake := 100 },
    randomness_seed := List.replicate 32 1 }

/-- Proposer selection over the same validators with the opposite iteration
order. -/
def psOrd2 : ProposerSelection :=
  { validator_set := { validators := [(2, vA2), (1, vA1)], total_stake := 400,
                       min_stake := 100 },
    randomness_seed := List.replicate 32 1 }

/-- A transaction whose hash is the byte string 02...02. -/
def txX : Transaction :=
  { fromAddr := 1, toAddr := 2, amount := 0, timestamp := 0, nonce := 0,
    gas_limit := 0, gas_price := 0, signature := 0, hash := List.replicate 32 2 }

/-- A transaction whose hash is the byte string 01...01, below txX.hash. -/
def txY : Transaction :=
  { fromAddr := 1, toAddr := 2, amount := 0, timestamp := 0, nonce := 1,
    gas_limit := 0, gas_price := 0, signature := 0, hash := List.replicate 32 1 }

/-- Gas price chosen so that gas_limit * gas_price wraps modulo 2^256 while
intrinsic_gas * gas_price does not: the largest price with
21160 * gC10 < 2^256. -/
def gC10 : Nat := (U256MOD - 1) / 21160

/-- Overflow transaction: amount 2^256 - 1, gas_limit twice the intrinsic
21160, price gC10; max_transaction_cost wraps far below the true cost. -/
def txC10 : Transaction :=
  { fromAddr := 21, toAddr := 22, amount := U256MOD - 1, timestamp := 0, nonce := 0,
    gas_limit := 42320, gas_price := gC10, signature := 0, hash := zeros32 }

/-- Sender state whose balance equals the wrapped max_transaction_cost of
txC10 yet lies below the wrapped actual total cost. -/
def stC10 : State :=
  { accounts := [(21, { balance := 2 * (21160 * gC10) - U256MOD - 1, nonce := 0,
                        address := 21 })],
    state_root := zeros32 }

/-- An insertion sort leaves a list untouched when adjacent elements are
already in order. -/
theorem sortBy_sorted_eq {α : Type} (leB : α → α → Bool) :
    ∀ l : List α, List.Chain' (fun a b => leB a b = true) l → sortBy leB l = l
  | [], _ => rfl
  | [_], _ => rfl
  | x :: y :: ys, h => by
    have hxy : leB x y = true := (List.chain'_cons.mp h).1
    have ih := sortBy_sorted_eq leB (y :: ys) (List.chain'_cons.mp h).2
    show insertSorted leB x (sortBy leB (y :: ys)) = x :: y :: ys
    rw [ih]
    show (if leB x y then x :: y :: ys else y :: insertSorted leB x ys) = x :: y :: ys
    rw [hxy]
    simp

/-- C1: a block satisfying checks 1-5 of ConsensusEngine::validate_block
(successor index, matching parent hash, the selected proposer, a timestamp
within the 30-second tolerance, the recomputed transactions root) is still
rejected: check 6 compares calculate_block_hash, which serializes
(timestamp, slot, state_root, transactions_root), against
BlockHeader::hash, which serializes (slot, timestamp, transactions_root,
state_root), so for slot 7 ≠ timestamp 5 the two preimages differ and any
hash distinguishing them (here the identity instantiation) makes
validate_block return false instead of the claimed true. -/
theorem claim_validate_block_check6_rejects :
    blkC1.header.index = engC1.current_block_number + 1 ∧
    blkC1.header.parent_hash = engC1.current_block_hash ∧
    selector_proposer (chachaConst 0) engC1.proposer_selection blkC1.header.slot
      = .ok blkC1.header.proposer ∧
    blkC1.header.timestamp ≤ 100 + 30 ∧
    calculate_transactions_root hashId blkC1.transactions
      = blkC1.header.transactions_root ∧
    validate_block hashId (chachaConst 0) engC1 100 blkC1 = some false := by
  refine ⟨rfl, rfl, rfl, by decide, rfl, ?_⟩
  decide

/-- C2: finalize_block writes the execution state root into the header, and
the engine's local key is exactly the proposer of the block produced by
create_block, yet the finalized header's validator_signature is none: the
source computes the signature but binds it to the discarded _signature and
never attaches it, contradicting the claim that the signature is attached. -/
theorem claim_finalize_block_drops_signature :
    (create_block hashId (chachaConst 0) engC2 3 5 []).map
      (fun b => ((finalize_block signConst hashId engC2 b resC2).header.state_root,
                 (finalize_block signConst hashId engC2 b resC2).header.validator_signature,
                 b.header.proposer))
      = some (resC2.state_root, none, 7) ∧
    engC2.local_keypair = some 7 := by
  exact ⟨rfl, rfl⟩

/-- C3: simulate_execute_block admits only t1C3 from the pending pair (t2C3
has gas_limit 0 < 21000), yet the block returned by produce_block contains
both pending transactions: the source checks that valid_transactions is
nonempty but then passes the unfiltered pending list to create_block,
contradicting the claim that the block holds exactly the admitted
subsequence. -/
theorem claim_produce_block_includes_filtered_transaction :
    simulate_execute_block stC3 [t1C3, t2C3] = [t1C3] ∧
    (produce_block hashId (chachaConst 0) signConst engC2 1 5 [t1C3, t2C3] stC3
        gasConfigDefault).map (fun p => p.1.transactions)
      = some [t1C3, t2C3] := by
  exact ⟨rfl, rfl⟩

/-- C4: tNewW carries the same (from, nonce) as the stored tOldW with a
strictly lower gas price and a valid signature, yet add_transaction returns
Ok and inserts it, leaving two pending transactions with the same (from,
nonce): replace_transaction_by_fee only logs the rejection and always
returns Ok, contradicting the claim that the incoming transaction is
rejected and the pool left unchanged. -/
theorem claim_add_transaction_accepts_lower_fee_duplicate :
    is_signature_valid (recoverConst 5) hashConst tNewW = true ∧
    tOldW.fromAddr = tNewW.fromAddr ∧ tOldW.nonce = tNewW.nonce ∧
    tNewW.gas_price ≤ tOldW.gas_price ∧
    add_transaction (recoverConst 5) hashConst poolW4 tNewW
      = .ok (List.replicate 32 2,
             { transactions := [(List.replicate 32 1, tOldW),
                                (List.replicate 32 2, tNewW)],
               max_size := 10 }) := by
  refine ⟨rfl, rfl, rfl, by decide, ?_⟩
  rfl

/-- C9: poolW9 is full (one stored transaction, max_size 1) and tBW matches
no stored (from, nonce), yet add_transaction returns Ok and inserts it,
growing the pool to two entries: the execution-engine mempool never
consults max_size, contradicting the claim of a mempool-full rejection with
the pool unchanged. -/
theorem claim_add_transaction_ignores_capacity :
    poolW9.transactions.length = poolW9.max_size ∧
    is_signature_valid (recoverConst 8) hashConst tBW = true ∧
    add_transaction (recoverConst 8) hashConst poolW9 tBW
      = .ok (List.replicate 32 2,
             { transactions := [(List.replicate 32 1, tOldW),
                                (List.replicate 32 2, tBW)],
               max_size := 1 }) := by
  refine ⟨rfl, rfl, ?_⟩
  rfl

/-- C6: scenario S1 - from the state where Alice (address 10) holds
100e18 with nonce 0 and Bob (address 11) is absent, the Alice→Bob transfer
of 1e18 with gas_limit 21160, gas_price 1e9 and nonce 0 succeeds under the
default gas config with gas_used 21160, leaving Alice at
100e18 - 1e18 - 21160e9 with nonce 1 and Bob at 1e18; this holds for every
instantiation of the external keccak primitive. -/
theorem claim_funded_transfer_scenario (keccak : Bytes → Bytes) :
    ∃ st', apply_transaction keccak stS1 txS1 gasConfigDefault = .ok 21160 st' ∧
      get_account st' aliceAddr
        = { balance := 100 * 10 ^ 18 - 10 ^ 18 - 21160 * 10 ^ 9, nonce := 1,
            address := aliceAddr } ∧
      get_account st' bobAddr
        = { balance := 10 ^ 18, nonce := 0, address := bobAddr } := by
  refine ⟨_, rfl, rfl, rfl⟩

/-- C7: the two proposer selections hold permutations of the same validator
entries with the same min_stake and seed, yet selector_proposer returns
address 1 under one iteration order and address 2 under the other (draw
50 of total stake 400): get_active_validators walks HashMap::values with
no sort, so the walk is not in address-ascending order and the selection is
not a function of the validator set alone, contradicting the claim. -/
theorem claim_selector_proposer_order_dependent :
    psOrd1.validator_set.validators.Perm psOrd2.validator_set.validators ∧
    psOrd1.validator_set.min_stake = psOrd2.validator_set.min_stake ∧
    psOrd1.randomness_seed = psOrd2.randomness_seed ∧
    selector_proposer (chachaConst 50) psOrd1 9 = .ok 1 ∧
    selector_proposer (chachaConst 50) psOrd2 9 = .ok 2 := by
  exact ⟨List.Perm.swap _ _ _, rfl, rfl, rfl, rfl⟩

/-- C8 counterexample: on the two-transaction list [txX, txY] whose hashes
are out of ascending order, the transactions root computed by the consensus
engine (concatenation in list order) differs from the sorted-order root
stated by the claim, under the identity instantiation of keccak, which
distinguishes the two concrete concatenations exactly as the real keccak256
does (no collision between them is known). -/
theorem claim_transactions_root_sorted_refuted :
    calculate_transactions_root hashId [txX, txY]
      ≠ spec_transactions_root_sorted hashId [txX, txY] := by
  decide

/-- C8 (amended): the consensus engine's transactions root is keccak256 of
the transaction hashes concatenated in the block's own order; it agrees
with the ascending-hash-order root of the claim precisely on lists whose
hashes are already ascending, and the empty sequence yields the all-zero
root. -/
theorem claim_transactions_root_insertion_order (keccak : Bytes → Bytes)
    (txs : List Transaction)
    (h : List.Chain' (fun a b => bytesLe a.hash b.hash = true) txs) :
    calculate_transactions_root keccak txs = spec_transactions_root_sorted keccak txs ∧
    calculate_transactions_root keccak [] = zeros32 := by
  constructor
  · unfold calculate_transactions_root spec_transactions_root_sorted
    rw [sortBy_sorted_eq (fun a b => bytesLe a.hash b.hash) txs h]
  · rfl

/-- Witness for C8 (amended): the hash-ascending list [txY, txX]
instantiates the theorem; both roots evaluate to the same byte string. -/
theorem claim_transactions_root_insertion_order_witness :
    calculate_transactions_root hashId [txY, txX]
      = spec_transactions_root_sorted hashId [txY, txX] ∧
    calculate_transactions_root hashId [] = zeros32 :=
  claim_transactions_root_insertion_order hashId [txY, txX]
    (List.Chain.cons (by decide) List.Chain.nil)

/-- C5: apply_transaction is atomic on failure - whenever it returns a
typed error, the state it leaves behind is the state it was given: every
error return happens before the first set_account, so the account map and
the cached state root are untouched. -/
theorem claim_apply_transaction_atomic (keccak : Bytes → Bytes) (st : State)
    (tx : Transaction) (config : GasConfig) (e : StateTransitionError) (st' : State)
    (h : apply_transaction keccak st tx config = .err e st') : st' = st := by
  simp only [apply_transaction] at h
  repeat' split at h
  all_goals first
    | (injection h with h1 h2; exact h2.symm)
    | cases h

/-- Witness for C5: the unfunded transfer txErrW from the empty state fails
with InsufficientBalance and the error state returned is the input state. -/
theorem claim_apply_transaction_atomic_witness :
    apply_transaction hashConst stEmpty txErrW gasConfigDefault
      = .err (.insufficientBalance 0 (21160 * 10 ^ 9)) stEmpty ∧
    stEmpty = stEmpty :=
  ⟨by decide, claim_apply_transaction_atomic hashConst stEmpty txErrW gasConfigDefault
    (.insufficientBalance 0 (21160 * 10 ^ 9)) stEmpty (by decide)⟩

/-- C10 counterexample: with wrapping release-mode U256 arithmetic,
txC10 passes every check of apply_transaction from state stC10 - its
wrapped max_transaction_cost equals the sender balance - yet the wrapped
actual total cost exceeds the balance, checked_sub returns None and the
unwrap at the update step panics, refuting the claim that a call reaching
the update step never panics. -/
theorem claim_apply_transaction_overflow_panics :
    apply_transaction hashConst stC10 txC10 gasConfigDefault = .panicked stC10 ∧
    max_transaction_cost txC10 < txC10.amount + txC10.gas_limit * txC10.gas_price := by
  exact ⟨rfl, by decide⟩

/-- C10 (amended): when the exact product-and-sum
amount + gas_limit * gas_price does not overflow U256 - so that
max_transaction_cost is computed without wrapping - a call to
apply_transaction never panics: intrinsic gas is bounded by gas_limit, so
the actual total cost is bounded by the checked maximum cost and by the
sender balance, making checked_sub succeed, and the recipient checked_add
was explicitly checked. -/
theorem claim_apply_transaction_no_panic_without_overflow (keccak : Bytes → Bytes)
    (st : State) (tx : Transaction) (config : GasConfig)
    (h : tx.amount + tx.gas_limit * tx.gas_price < U256MOD) :
    (apply_transaction keccak st tx config).isPanic = false := by
  have hglp : tx.gas_limit * tx.gas_price < U256MOD :=
    lt_of_le_of_lt (Nat.le_add_left _ _) h
  simp only [apply_transaction]
  split_ifs with h1 h2 h3 h4 h5 h6 h7
  all_goals try rfl
  have hintr : calculate_instrinsic_gas config ≤ tx.gas_limit := not_lt.mp h3
  have hmle : calculate_instrinsic_gas config * tx.gas_price
      ≤ tx.gas_limit * tx.gas_price := mul_le_mul_right' hintr _
  have hmul_eq : u256mul (calculate_instrinsic_gas config) tx.gas_price
      = calculate_instrinsic_gas config * tx.gas_price :=
    Nat.mod_eq_of_lt (lt_of_le_of_lt hmle hglp)
  have htot_lt : tx.amount + calculate_instrinsic_gas config * tx.gas_price
      < U256MOD := lt_of_le_of_lt (Nat.add_le_add_left hmle _) h
  have hmax_eq : max_transaction_cost tx
      = tx.amount + tx.gas_limit * tx.gas_price := by
    unfold max_transaction_cost u256add u256mul
    rw [Nat.mod_eq_of_lt hglp, Nat.mod_eq_of_lt h]
  have hble : tx.amount + calculate_instrinsic_gas config * tx.gas_price
      ≤ (get_account st tx.fromAddr).balance := by
    have hb := not_lt.mp h5
    rw [hmax_eq] at hb
    exact le_trans (Nat.add_le_add_left hmle _) hb
  have hsub : u256checkedSub (get_account st tx.fromAddr).balance
      (u256add tx.amount (u256mul (calculate_instrinsic_gas config) tx.gas_price))
      = some ((get_account st tx.fromAddr).balance
          - (tx.amount + calculate_instrinsic_gas config * tx.gas_price)) := by
    rw [hmul_eq]
    unfold u256add
    rw [Nat.mod_eq_of_lt htot_lt]
    unfold u256checkedSub
    rw [if_pos hble]
  rw [hsub]
  rcases hca : u256checkedAdd (get_account st tx.toAddr).balance tx.amount with _ | rb
  · rw [hca] at h7
    exact absurd rfl h7
  · rfl

/-- Witness for C10 (amended): the scenario-S1 inputs satisfy the
no-overflow bound and the call does not panic. -/
theorem claim_apply_transaction_no_panic_without_overflow_witness :
    txS1.amount + txS1.gas_limit * txS1.gas_price < U256MOD ∧
    (apply_transaction hashConst stS1 txS1 gasConfigDefault).isPanic = false :=
  ⟨by decide,
   claim_apply_transaction_no_panic_without_overflow hashConst stS1 txS1
     gasConfigDefault (by decide)⟩
